import Mathlib

/-!
Verification of the abaper SAP ADT client (Go) against its specification.

The Go sources are shallowly embedded: Go strings are modelled either as
Lean `String` (where only equality/concatenation matters) or as `List Char`
(`GoStr`, where character-level scanning from the `strings` package is
needed); HTTP traffic is modelled by explicit response oracles passed to the
embedded functions; mutation of the `ADTClient` struct is explicit state
passing over `ClientState`.
-/

/-- Go strings, viewed as character lists (for `strings`-package scanning). -/
abbrev GoStr := List Char

/-- Embed a Lean string literal as a `GoStr`. -/
def strLit (s : String) : GoStr := s.data

/-- Models Go `unicode.IsSpace` on the ASCII whitespace range (the only
whitespace characters occurring in the inputs the client handles; the Unicode
space classes NEL, NBSP and Zs are not modelled). -/
def goIsSpace (c : Char) : Bool :=
  (c == ' ') || (c == '\t') || (c == '\n') || (c == Char.ofNat 11) ||
    (c == Char.ofNat 12) || (c == '\r')

/-- Models Go `strings.TrimSpace`: drop whitespace from both ends. -/
def trimSpace (s : GoStr) : GoStr :=
  ((s.dropWhile goIsSpace).reverse.dropWhile goIsSpace).reverse

/-- Models Go `strings.TrimSuffix`: remove `suf` once if it is a suffix. -/
def trimSuffixG (s suf : GoStr) : GoStr :=
  if suf.isSuffixOf s then s.take (s.length - suf.length) else s

/-- Models `normalizeBaseURL` from adt_client.go: trim spaces, drop one
trailing slash, default the scheme to http, and append the ADT root path
unless already present. -/
def normalizeBaseURL (host : GoStr) : GoStr :=
  let h1 := trimSpace host
  let h2 := trimSuffixG h1 (strLit "/")
  let h3 :=
    if (strLit "http://").isPrefixOf h2 || (strLit "https://").isPrefixOf h2 then h2
    else strLit "http://" ++ h2
  if (strLit "/sap/bc/adt").isSuffixOf h3 then h3 else h3 ++ strLit "/sap/bc/adt"

/-- The `Config` fields used by the connection cache in main.go. -/
structure MainConfig where
  adtHost : String
  adtClient : String
  adtUsername : String
  adtPassword : String
deriving DecidableEq, Repr

/-- Models the cache-key computation in `getCachedADTClient` (main.go):
`fmt.Sprintf("%s|%s|%s|%s", host, client, username, password)`. -/
def configKey (c : MainConfig) : String :=
  c.adtHost ++ "|" ++ c.adtClient ++ "|" ++ c.adtUsername ++ "|" ++ c.adtPassword

/-- An HTTP response as observed by the client: status code, body, and the
response headers the client reads (X-CSRF-Token, sap-adt-lockhandle,
X-sap-adt-lockhandle); an absent header is the empty string, matching Go
`Header.Get`. -/
structure HttpResp where
  status : Nat
  body : String
  csrfHeader : String := ""
  lockHandleHdr : String := ""
  lockHandleHdrX : String := ""
deriving DecidableEq, Repr

/-- Outcome of one HTTP round trip: a transport-level error (from
`http.NewRequest` or `httpClient.Do`, carrying the error text) or a
response. -/
inductive ReqOutcome where
  | fail (msg : String)
  | resp (r : HttpResp)
deriving DecidableEq, Repr

/-- The `ADTConfig` fields relevant to the embedded behaviour. -/
structure ADTConfig where
  host : String
  client : String
  username : String
  password : String
  language : String
deriving DecidableEq, Repr

/-- Models the config-defaulting done by `NewADTClient` (adt_client.go):
empty language becomes "EN" and empty client becomes "100" (timeout
defaulting is not behaviour-relevant here). -/
def newADTClientConfig (cfg : ADTConfig) : ADTConfig :=
  { cfg with
    language := if cfg.language = "" then "EN" else cfg.language
    client := if cfg.client = "" then "100" else cfg.client }

/-- The mutable `ADTClient` fields the embedded operations read and write. -/
structure ClientState where
  config : ADTConfig
  csrfToken : String
  authenticated : Bool
  sessionType : String
deriving DecidableEq, Repr

/-- The state of a client freshly built by `NewADTClient`: zero-valued
`csrfToken` and `authenticated`, session type defaulted to "stateful". -/
def newClientState (cfg : ADTConfig) : ClientState :=
  { config := newADTClientConfig cfg
    csrfToken := ""
    authenticated := false
    sessionType := "stateful" }

/-- Models `ADTClient.SetSessionType`. -/
def SetSessionType (st : ClientState) (sessionType : String) : ClientState :=
  { st with sessionType := sessionType }

/-- Models `ADTClient.IsAuthenticated`:
`c.authenticated && c.csrfToken != ""`. -/
def IsAuthenticated (st : ClientState) : Bool :=
  st.authenticated && (st.csrfToken != "")

/-- Request headers as a finite map from header name to value; `Header.Set`
replaces any previous value for the name. -/
def HeaderMap := String → Option String

/-- Models Go `req.Header.Set`. -/
def setHeader (h : HeaderMap) (k v : String) : HeaderMap :=
  fun k' => if k' = k then some v else h k'

/-- The empty header set of a fresh `http.NewRequest`. -/
def emptyHeaders : HeaderMap := fun _ => none

/-- UTF-8 encoding of one character (code point to byte values), as in Go
`[]byte(string)`. -/
def utf8Bytes (c : Char) : List Nat :=
  let n := c.toNat
  if n < 0x80 then [n]
  else if n < 0x800 then [0xC0 + n / 64, 0x80 + n % 64]
  else if n < 0x10000 then [0xE0 + n / 4096, 0x80 + n / 64 % 64, 0x80 + n % 64]
  else [0xF0 + n / 262144, 0x80 + n / 4096 % 64, 0x80 + n / 64 % 64, 0x80 + n % 64]

/-- The standard base64 alphabet, indexed 0–63. -/
def base64Alphabet : List Char :=
  "ABCDEFGHIJKLMNOPQRSTUVWXYZabcdefghijklmnopqrstuvwxyz0123456789+/".data

/-- Base64-encode a byte list (models Go
`base64.StdEncoding.EncodeToString`). -/
def base64Chunks : List Nat → List Char
  | b0 :: b1 :: b2 :: rest =>
    let v := b0 * 65536 + b1 * 256 + b2
    (base64Alphabet.getD (v / 262144) 'A') :: (base64Alphabet.getD (v / 4096 % 64) 'A') ::
      (base64Alphabet.getD (v / 64 % 64) 'A') :: (base64Alphabet.getD (v % 64) 'A') ::
      base64Chunks rest
  | [b0, b1] =>
    let v := b0 * 65536 + b1 * 256
    [base64Alphabet.getD (v / 262144) 'A', base64Alphabet.getD (v / 4096 % 64) 'A',
      base64Alphabet.getD (v / 64 % 64) 'A', '=']
  | [b0] =>
    let v := b0 * 65536
    [base64Alphabet.getD (v / 262144) 'A', base64Alphabet.getD (v / 4096 % 64) 'A', '=', '=']
  | [] => []

/-- Models `base64.StdEncoding.EncodeToString([]byte(s))`. -/
def base64Encode (s : String) : String :=
  ⟨base64Chunks (s.data.flatMap utf8Bytes)⟩

/-- Models `ADTClient.addBasicAuth`: sets the Authorization header to the
base64-encoded `username:password` credential. -/
def addBasicAuth (cfg : ADTConfig) (h : HeaderMap) : HeaderMap :=
  setHeader h "Authorization" ("Basic " ++ base64Encode (cfg.username ++ ":" ++ cfg.password))

/-- Models `ADTClient.addStandardHeaders`: fixed Accept/User-Agent/
Cache-Control, sap-client and Accept-Language only when the config fields
are non-empty, and the X-sap-adt-sessiontype header always forced to
"stateful" — the internal `sessionType` field is only logged, never sent. -/
def addStandardHeaders (cfg : ADTConfig) (sessionType : String) (h : HeaderMap) : HeaderMap :=
  let h1 := setHeader h "Accept" "application/xml,application/json,*/*"
  let h2 := setHeader h1 "User-Agent" "BlueFunda-ABAPER/2.0.0"
  let h3 := setHeader h2 "Cache-Control" "no-cache"
  let h4 := if cfg.client ≠ "" then setHeader h3 "sap-client" cfg.client else h3
  let h5 := if cfg.language ≠ "" then setHeader h4 "Accept-Language" cfg.language.toLower else h4
  let _ := sessionType
  setHeader h5 "X-sap-adt-sessiontype" "stateful"

/-- Models `ADTClient.addAuthHeaders`: basic auth, the standard headers, and
the CSRF token when one is held. -/
def addAuthHeaders (cfg : ADTConfig) (sessionType csrfToken : String) (h : HeaderMap) : HeaderMap :=
  let h1 := addBasicAuth cfg h
  let h2 := addStandardHeaders cfg sessionType h1
  if csrfToken ≠ "" then setHeader h2 "X-CSRF-Token" csrfToken else h2

/-- Models `ADTClientImpl.addAuthHeaders` (the second client type in
adt_client.go): basic auth, unconditional sap-client and sap-language,
default Accept only when unset, CSRF when held, and X-sap-adt-sessiontype
copied from the `sessionType` field when that field is non-empty. -/
def implAddAuthHeaders (cfg : ADTConfig) (sessionType csrfToken : String) (h : HeaderMap) : HeaderMap :=
  let h1 := setHeader h "Authorization"
    ("Basic " ++ base64Encode (cfg.username ++ ":" ++ cfg.password))
  let h2 := setHeader h1 "sap-client" cfg.client
  let h3 := setHeader h2 "sap-language" cfg.language
  let h4 := if (h3 "Accept").getD "" = "" then setHeader h3 "Accept" "application/atomsvc+xml" else h3
  let h5 := if csrfToken ≠ "" then setHeader h4 "X-CSRF-Token" csrfToken else h4
  let h6 := if sessionType ≠ "" then setHeader h5 "X-sap-adt-sessiontype" sessionType else h5
  setHeader h6 "User-Agent" "abaper-cli/1.0"

/-- The discovery-style endpoints tried by `performLogin` and
`validateSession`, in order. -/
def loginEndpoints : List String :=
  ["/core/info/system", "/discovery", "/compatibility/graph"]

/-- The loop body of `ADTClient.performLogin` over (endpoint, outcome)
pairs, threading `lastError`: 200/304 succeeds, 401 and 403 abort with a
classified error, 404 records a not-found error and continues, a transport
error records it and continues, any other status continues without touching
`lastError`; after exhaustion the recorded error (if any) is wrapped. -/
def performLoginLoop : List (String × ReqOutcome) → Option String → Except String Unit
  | [], none => .error "failed to establish session: no suitable endpoint found"
  | [], some e => .error ("failed to establish session with any endpoint: " ++ e)
  | (_, .fail msg) :: rest, _ => performLoginLoop rest (some msg)
  | (ep, .resp r) :: rest, last =>
    if r.status = 200 ∨ r.status = 304 then .ok ()
    else if r.status = 401 then
      .error "authentication failed (401): Invalid username or password"
    else if r.status = 403 then
      .error "access forbidden (403): User lacks proper authorizations (S_DEVELOP)"
    else if r.status = 404 then
      performLoginLoop rest (some ("ADT service not found: " ++ ep))
    else performLoginLoop rest last

/-- Models `ADTClient.performLogin`, driven by one outcome per endpoint. -/
def performLogin (rs : List ReqOutcome) : Except String Unit :=
  performLoginLoop (loginEndpoints.zip rs) none

/-- Models `ADTClient.getCSRFToken`: on a 200/304 response the token header
is stored into the state first and then rejected if it is empty or the
"Fetch" placeholder; on any other outcome the state is unchanged. -/
def getCSRFToken (r : ReqOutcome) (st : ClientState) : ClientState × Except String Unit :=
  match r with
  | .fail msg => (st, .error ("CSRF token request failed: " ++ msg))
  | .resp resp =>
    if resp.status = 200 ∨ resp.status = 304 then
      let st1 := { st with csrfToken := resp.csrfHeader }
      if resp.csrfHeader = "" ∨ resp.csrfHeader = "Fetch" then
        (st1, .error "no valid CSRF token received from server")
      else (st1, .ok ())
    else
      (st, .error ("CSRF token request failed with status " ++ toString resp.status ++
        ": " ++ resp.body))

/-- Outcome of the validation-endpoint loop: a success, or exhaustion with
the last recorded error. -/
inductive ValidateLoopResult where
  | success
  | exhausted (lastError : Option String)
deriving DecidableEq, Repr

/-- The loop body of `ADTClient.validateSession`: 200/304 succeeds, a
transport error or 404 or any other status records an error and
continues. -/
def validateSessionLoop : List (String × ReqOutcome) → Option String → ValidateLoopResult
  | [], last => .exhausted last
  | (_, .fail msg) :: rest, _ => validateSessionLoop rest (some msg)
  | (ep, .resp r) :: rest, _last =>
    if r.status = 200 ∨ r.status = 304 then .success
    else if r.status = 404 then
      validateSessionLoop rest (some ("validation endpoint not found: " ++ ep))
    else
      validateSessionLoop rest
        (some ("validation failed at " ++ ep ++ ": HTTP " ++ toString r.status))

/-- Models `ADTClient.validateSession`: try every endpoint; if all fail but
a CSRF token is held, the session is still considered valid. -/
def validateSession (rs : List ReqOutcome) (st : ClientState) : Except String Unit :=
  match validateSessionLoop (loginEndpoints.zip rs) none with
  | .success => .ok ()
  | .exhausted last =>
    if st.csrfToken ≠ "" then .ok ()
    else
      match last with
      | some e => .error ("all validation endpoints failed: " ++ e)
      | none => .error "session validation failed: no suitable validation endpoint found"

/-- The network environment of one `Authenticate` run: connectivity-test
outcome, one outcome per login endpoint, the CSRF-fetch outcome, and one
outcome per validation endpoint. -/
structure AuthEnv where
  conn : Except String Unit
  login : List ReqOutcome
  csrf : ReqOutcome
  validate : List ReqOutcome

/-- Models `ADTClient.Authenticate`: connectivity test, login, CSRF fetch
and session validation in order, each failure wrapped and aborting the run;
only full success sets `authenticated := true`. -/
def Authenticate (env : AuthEnv) (st : ClientState) : ClientState × Except String Unit :=
  match env.conn with
  | .error e => (st, .error ("connectivity test failed: " ++ e))
  | .ok _ =>
    match performLogin env.login with
    | .error e => (st, .error ("login failed: " ++ e))
    | .ok _ =>
      match getCSRFToken env.csrf st with
      | (st1, .error e) => (st1, .error ("CSRF token retrieval failed: " ++ e))
      | (st1, .ok _) =>
        match validateSession env.validate st1 with
        | .error e => (st1, .error ("session validation failed: " ++ e))
        | .ok _ => ({ st1 with authenticated := true }, .ok ())

/-- Split a character list at the first occurrence of `sep` (models
Go `strings.Index`): `some (before, after)` with the separator removed, or
`none` when `sep` does not occur. -/
def breakOnAux (sep : GoStr) (acc : GoStr) : GoStr → Option (GoStr × GoStr)
  | [] => none
  | c :: rest =>
    if sep.isPrefixOf (c :: rest) then some (acc.reverse, (c :: rest).drop sep.length)
    else breakOnAux sep (c :: acc) rest

/-- First-occurrence split, entry point. -/
def breakOn (sep s : GoStr) : Option (GoStr × GoStr) := breakOnAux sep [] s

/-- Models Go `strings.Contains` (for non-empty `sub`). -/
def goContains (s sub : String) : Bool := (breakOn sub.data s.data).isSome

/-- One HTTP lock attempt recorded in the trace of a `lockProgram` run. -/
inductive LockAttempt where
  | primary
  | alternative
deriving DecidableEq, Repr

/-- Models `ADTClient.lockProgramAlternative`: the retry with explicit
Content-Type `application/x-www-form-urlencoded`; any non-200 response is a
final error, the handle is read from the `sap-adt-lockhandle` then
`X-sap-adt-lockhandle` response headers. -/
def lockProgramAlternative (r : ReqOutcome) : Except String String :=
  match r with
  | .fail msg => .error ("alternative lock request failed: " ++ msg)
  | .resp resp =>
    if resp.status ≠ 200 then
      .error ("alternative lock failed: HTTP " ++ toString resp.status ++ " - " ++ resp.body)
    else
      let handle := if resp.lockHandleHdr ≠ "" then resp.lockHandleHdr else resp.lockHandleHdrX
      if handle = "" then .error "no lock handle in alternative response" else .ok handle

/-- The lock-step environment: the outcome of the primary lock request and
the outcome of the alternative-encoding request (consulted only if the
retry fires). -/
structure LockEnv where
  first : ReqOutcome
  second : ReqOutcome

/-- Models `ADTClient.lockProgram`, also recording which HTTP lock attempts
were made: a non-200 response triggers the single alternative-encoding
retry exactly when the status is 400 and the body contains
"Content type missing"; otherwise it is a final error. On 200 the handle is
read from the `sap-adt-lockhandle` then `X-sap-adt-lockhandle` headers. -/
def lockProgramRun (env : LockEnv) : List LockAttempt × Except String String :=
  match env.first with
  | .fail msg => ([.primary], .error ("lock request failed: " ++ msg))
  | .resp resp =>
    if resp.status ≠ 200 then
      if resp.status = 400 ∧ goContains resp.body "Content type missing" then
        ([.primary, .alternative], lockProgramAlternative env.second)
      else
        ([.primary],
          .error ("failed to lock program: HTTP " ++ toString resp.status ++ " - " ++ resp.body))
    else
      let handle := if resp.lockHandleHdr ≠ "" then resp.lockHandleHdr else resp.lockHandleHdrX
      if handle = "" then ([.primary], .error "no lock handle received from server")
      else ([.primary], .ok handle)

/-- Events observable in a `UpdateProgramSource` run (the unlock attempt
and the log line `unlockProgram` emits for it). -/
inductive Event where
  | unlockAttempt (name handle : String)
  | logUnlockOk
  | logUnlockFailed (status : Nat) (body : String)
  | logUnlockRequestError (msg : String)
deriving DecidableEq, Repr

/-- Models `ADTClient.unlockProgram`: performs the unlock request and only
logs its outcome — the function has no return value, so unlock failures can
never surface as an error of the caller. -/
def unlockProgram (name handle : String) (r : ReqOutcome) : List Event :=
  Event.unlockAttempt name handle ::
    match r with
    | .fail msg => [.logUnlockRequestError msg]
    | .resp resp =>
      if resp.status = 200 ∨ resp.status = 204 then [.logUnlockOk]
      else [.logUnlockFailed resp.status resp.body]

/-- Outcome of a `UpdateProgramSource` run: normal return without error,
an error return, or a panic propagating out of the PUT step. -/
inductive RunResult where
  | ok
  | err (msg : String)
  | panicked
deriving DecidableEq, Repr

/-- Outcome of the PUT step as driven by the environment: a transport
error, a response, or a panic-equivalent abort inside the step. -/
inductive PutOutcome where
  | reqFail (msg : String)
  | resp (status : Nat) (body : String)
  | abort
deriving DecidableEq, Repr

/-- The environment of one `UpdateProgramSource` run. -/
structure UpdateEnv where
  lock : LockEnv
  put : PutOutcome
  unlock : ReqOutcome

/-- The result `UpdateProgramSource` derives from the PUT step alone:
200/204 succeed, any other status is a protocol error carrying the body, a
transport failure is wrapped, an abort propagates. -/
def putOutcomeResult : PutOutcome → RunResult
  | .reqFail msg => .err ("source update request failed: " ++ msg)
  | .abort => .panicked
  | .resp status body =>
    if status ≠ 200 ∧ status ≠ 204 then
      .err ("failed to update program source: HTTP " ++ toString status ++ " - " ++ body)
    else .ok

/-- Models `ADTClient.UpdateProgramSource`: authentication guard, lock,
`defer unlockProgram`, then the PUT. The deferred unlock runs on every exit
path after a successful lock — normal return, error return, and panic — and
its outcome never reaches the returned result. The trace carries the unlock
events. -/
def UpdateProgramSource (st : ClientState) (name : String) (env : UpdateEnv) :
    List Event × RunResult :=
  if ¬ (IsAuthenticated st = true) then
    ([], .err "client not authenticated - call Authenticate() first")
  else
    let upName := name.trim.toUpper
    match lockProgramRun env.lock with
    | (_, .error e) => ([], .err ("failed to lock program: " ++ e))
    | (_, .ok handle) =>
      let bodyResult : RunResult :=
        match env.put with
        | .reqFail msg => .err ("source update request failed: " ++ msg)
        | .abort => .panicked
        | .resp status body =>
          if status ≠ 200 ∧ status ≠ 204 then
            .err ("failed to update program source: HTTP " ++ toString status ++ " - " ++ body)
          else .ok
      (unlockProgram upName handle env.unlock, bodyResult)

/-- True when `c` terminates an XML element name (models how the Go xml
decoder delimits a start tag: closing bracket, whitespace, or the
self-closing slash). -/
def nameBoundary (c : Char) : Bool :=
  (c == '>') || (c == ' ') || (c == '\t') || (c == '\n') || (c == '\r') || (c == '/')

/-- Extract the content of the first child element named `tag` from `s`:
models the path navigation Go `xml.Unmarshal` performs for a struct field
tagged `xml:"tag"` (attributes on the start tag are skipped; `none` for a
missing element or a decode failure, which the call sites treat alike). -/
def scanElement (tag : GoStr) : GoStr → Option GoStr
  | [] => none
  | c :: rest =>
    if ('<' :: tag).isPrefixOf (c :: rest) then
      match (c :: rest).drop ('<' :: tag).length with
      | [] => none
      | b :: after =>
        if nameBoundary b then
          match breakOn ['>'] (b :: after) with
          | none => none
          | some (_, inner) => (breakOn ('<' :: '/' :: (tag ++ ['>'])) inner).map Prod.fst
        else scanElement tag rest
    else scanElement tag rest

/-- Skip leading whitespace and an optional `<?xml ...?>` prolog. -/
def skipProlog (s : GoStr) : GoStr :=
  let t := s.dropWhile goIsSpace
  if (strLit "<?").isPrefixOf t then
    match breakOn (strLit "?>") t with
    | some (_, rest) => rest.dropWhile goIsSpace
    | none => t
  else t

/-- True when the root element of `s` is named `tag`: models the root-name
check `xml.Unmarshal` performs against the `XMLName` field of the struct (a
mismatch makes `Unmarshal` return an error). -/
def rootElementIs (tag : GoStr) (s : GoStr) : Bool :=
  let t := skipProlog s
  ('<' :: (tag ++ ['>'])).isPrefixOf t || ('<' :: (tag ++ [' '])).isPrefixOf t

/-- Decode of the `LockResponse` struct (root `abap`, path
values/DATA/LOCK_HANDLE and CORR_NR): the (lockHandle, corrNr) pair, empty
on a decode failure or missing field — exactly the cases the caller lumps
together by testing `LockHandle != ""`. -/
def abapLockFields (s : GoStr) : GoStr × GoStr :=
  if rootElementIs (strLit "abap") s then
    match scanElement (strLit "values") s with
    | none => ([], [])
    | some v =>
      match scanElement (strLit "DATA") v with
      | none => ([], [])
      | some d =>
        ((scanElement (strLit "LOCK_HANDLE") d).getD [],
          (scanElement (strLit "CORR_NR") d).getD [])
  else ([], [])

/-- Decode of the `ObjectRefsLockResponse` struct (root `objectReferences`,
path objectReference/LOCK_HANDLE and CORR_NR). -/
def objectRefsLockFields (s : GoStr) : GoStr × GoStr :=
  if rootElementIs (strLit "objectReferences") s then
    match scanElement (strLit "objectReference") s with
    | none => ([], [])
    | some o =>
      ((scanElement (strLit "LOCK_HANDLE") o).getD [],
        (scanElement (strLit "CORR_NR") o).getD [])
  else ([], [])

/-- The last-resort raw substring search of `parseLockResponse`: text
between the first `<lockHandle>` marker and the first `</lockHandle>` after
it. -/
def rawLockHandleFallback (s : GoStr) : Option GoStr :=
  match breakOn (strLit "<lockHandle>") s with
  | none => none
  | some (_, after) => (breakOn (strLit "</lockHandle>") after).map Prod.fst

/-- Models `ADTClientImpl.parseLockResponse`: try the ABAP-XML envelope,
then the objectReferences envelope, then the raw substring search; if all
fail, the error message carries the raw response body. -/
def parseLockResponse (s : GoStr) : Except GoStr (GoStr × GoStr) :=
  let a := abapLockFields s
  if a.1 ≠ [] then .ok a
  else
    let o := objectRefsLockFields s
    if o.1 ≠ [] then .ok o
    else
      match rawLockHandleFallback s with
      | some h => .ok (h, [])
      | none =>
        .error (strLit "failed to parse lock response in any known format. Response: " ++ s)

/-- Per-client-instance behaviour the cache observes: whether the instance
reports `IsAuthenticated` and whether its lightweight `ping` succeeds. -/
structure ClientOracle where
  isAuth : Nat → Bool
  pingOk : Nat → Bool

/-- The cache TTL from main.go: `30 * time.Minute`, in nanoseconds. -/
def cacheTimeout : Nat := 30 * 60 * 1000000000

/-- The package-level cache variables of main.go; client instances are
identified by numbers. -/
structure CacheState where
  cachedADTClient : Option Nat
  cachedADTConfig : String
  cacheTime : Nat
deriving DecidableEq, Repr

/-- Models `getCachedADTClient` (main.go): return the cached instance when
the key matches, the entry is within the TTL, the instance still reports
authenticated and its ping succeeds; otherwise build a new client through
`createADTClient` — which runs `Authenticate` exactly once — and cache it.
Result: (returned client, new cache state, number of Authenticate runs). -/
def getCachedADTClient (oracle : ClientOracle) (st : CacheState) (cfg : MainConfig)
    (now fresh : Nat) : Nat × CacheState × Nat :=
  let key := configKey cfg
  match st.cachedADTClient with
  | some c =>
    if st.cachedADTConfig = key ∧ now - st.cacheTime < cacheTimeout ∧
        oracle.isAuth c = true ∧ oracle.pingOk c = true then
      (c, st, 0)
    else (fresh, ⟨some fresh, key, now⟩, 1)
  | none => (fresh, ⟨some fresh, key, now⟩, 1)

/-- Concrete lock response in the ABAP-XML encoding (a), carrying lock
handle "X1". -/
def encodingA : GoStr :=
  strLit "<abap><values><DATA><LOCK_HANDLE>X1</LOCK_HANDLE><CORR_NR></CORR_NR></DATA></values></abap>"

/-- Concrete lock response in the objectReferences encoding (b), carrying
the same lock handle "X1". -/
def encodingB : GoStr :=
  strLit "<objectReferences><objectReference uri=\"/programs/programs/ZTEST\" name=\"ZTEST\"><LOCK_HANDLE>X1</LOCK_HANDLE><CORR_NR></CORR_NR></objectReference></objectReferences>"

/-- Whether an outcome is one the endpoint loops accept (HTTP 200 or
304). -/
def isHttpSuccess : ReqOutcome → Bool
  | .fail _ => false
  | .resp r => (r.status == 200) || (r.status == 304)

/-- Whether an outcome makes `performLogin` stop iterating: a success or a
fatal 401/403 classification. -/
def loginDeciding : ReqOutcome → Bool
  | .fail _ => false
  | .resp r =>
    (r.status == 200) || (r.status == 304) || (r.status == 401) || (r.status == 403)

/-- Whether an outcome is a response with the given status code. -/
def statusIs (n : Nat) : ReqOutcome → Bool
  | .fail _ => false
  | .resp r => r.status == n

/-- Whether the primary lock response triggers the alternate-encoding
retry: HTTP 400 with a body containing "Content type missing". -/
def triggersLockRetry : ReqOutcome → Bool
  | .fail _ => false
  | .resp r => (r.status == 400) && goContains r.body "Content type missing"

/-- Count of unlock attempts in an event trace. -/
def countUnlockAttempts (tr : List Event) : Nat :=
  tr.countP fun e => match e with
    | .unlockAttempt _ _ => true
    | _ => false

/-- Bridge between the executable `List.isPrefixOf` used in the embedding
and the `<+:` ordering used in proofs. -/
theorem isPrefixOf_eq_true_iff {α : Type} [BEq α] [LawfulBEq α] {l₁ l₂ : List α} :
    l₁.isPrefixOf l₂ = true ↔ l₁ <+: l₂ :=
  List.isPrefixOf_iff_prefix

/-- C9: the connection-cache key is the bar-joined concatenation of host,
client, username and password; the mapping is not injective — a host
containing a bar collides with a shifted client field — and a cache lookup
for one of the colliding profiles hits the entry cached for the other. -/
theorem configKey_collision :
    configKey ⟨"h|x", "c", "u", "p"⟩ = configKey ⟨"h", "x|c", "u", "p"⟩ ∧
    (⟨"h|x", "c", "u", "p"⟩ : MainConfig) ≠ ⟨"h", "x|c", "u", "p"⟩ ∧
    getCachedADTClient ⟨fun _ => true, fun _ => true⟩
        ⟨some 7, configKey ⟨"h|x", "c", "u", "p"⟩, 0⟩ ⟨"h", "x|c", "u", "p"⟩ 0 8 =
      (7, ⟨some 7, configKey ⟨"h|x", "c", "u", "p"⟩, 0⟩, 0) := by
  refine ⟨rfl, by decide, by rfl⟩

/-- C4: `parseLockResponse` returns the same handle "X1" for both known XML
encodings of the same logical value; the ABAP envelope is preferred when it
yields a handle, the raw substring search runs as a last resort after both
structured decodes fail, and when all three attempts fail the error message
carries the raw response body. -/
theorem parseLockResponse_spec :
    parseLockResponse encodingA = .ok (strLit "X1", []) ∧
    parseLockResponse encodingB = .ok (strLit "X1", []) ∧
    (∀ s, (abapLockFields s).1 ≠ [] → parseLockResponse s = .ok (abapLockFields s)) ∧
    (∀ s h, (abapLockFields s).1 = [] → (objectRefsLockFields s).1 = [] →
      rawLockHandleFallback s = some h → parseLockResponse s = .ok (h, [])) ∧
    (∀ s, (abapLockFields s).1 = [] → (objectRefsLockFields s).1 = [] →
      rawLockHandleFallback s = none →
      parseLockResponse s =
        .error (strLit "failed to parse lock response in any known format. Response: " ++ s)) := by
  refine ⟨by rfl, by rfl, ?_, ?_, ?_⟩
  · intro s h1
    simp [parseLockResponse, h1]
  · intro s h ha ho hraw
    simp [parseLockResponse, ha, ho, hraw]
  · intro s ha ho hraw
    simp [parseLockResponse, ha, ho, hraw]

/-- C4 witness: a body no decode accepts produces the protocol error that
carries the raw body. -/
theorem parseLockResponse_spec_witness :
    parseLockResponse (strLit "zzz") =
      .error (strLit "failed to parse lock response in any known format. Response: " ++
        strLit "zzz") :=
  parseLockResponse_spec.2.2.2.2 (strLit "zzz") rfl rfl rfl

/-- Every `normalizeBaseURL` result starts with one of the two schemes. -/
theorem norm_scheme (h : GoStr) :
    strLit "http://" <+: normalizeBaseURL h ∨ strLit "https://" <+: normalizeBaseURL h := by
  have key : ∀ x y : GoStr, (strLit "http://" <+: x ∨ strLit "https://" <+: x) →
      (strLit "http://" <+: x ++ y ∨ strLit "https://" <+: x ++ y) := by
    intro x y hx
    exact hx.imp (fun hp => hp.trans (List.prefix_append x y))
      (fun hp => hp.trans (List.prefix_append x y))
  simp only [normalizeBaseURL]
  split
  · next hc =>
    have hz := (Bool.or_eq_true_iff.mp hc).imp
      isPrefixOf_eq_true_iff.mp isPrefixOf_eq_true_iff.mp
    split
    · exact hz
    · exact key _ _ hz
  · have hz : strLit "http://" <+: strLit "http://" ++ trimSuffixG (trimSpace h) (strLit "/") ∨
        strLit "https://" <+: strLit "http://" ++ trimSuffixG (trimSpace h) (strLit "/") :=
      Or.inl (List.prefix_append _ _)
    split
    · exact hz
    · exact key _ _ hz

/-- Every `normalizeBaseURL` result ends with the ADT root path. -/
theorem norm_adt_suffix (h : GoStr) : strLit "/sap/bc/adt" <:+ normalizeBaseURL h := by
  simp only [normalizeBaseURL]
  split <;> split
  · rename_i hsuf
    exact List.isSuffixOf_iff_suffix.mp hsuf
  · exact List.suffix_append _ _
  · rename_i hsuf
    exact List.isSuffixOf_iff_suffix.mp hsuf
  · exact List.suffix_append _ _

/-- Strings already in normal form (scheme prefix, ADT-path suffix) are
fixed points of `normalizeBaseURL`. -/
theorem norm_fixed {s : GoStr}
    (hpre : strLit "http://" <+: s ∨ strLit "https://" <+: s)
    (hsuf : strLit "/sap/bc/adt" <:+ s) : normalizeBaseURL s = s := by
  obtain ⟨u, hu⟩ := hsuf
  have hlast : s = (u ++ strLit "/sap/bc/ad") ++ ['t'] := by
    rw [← hu, List.append_assoc]
    rfl
  have hcons : ∃ t : GoStr, s = 'h' :: t := by
    rcases hpre with ⟨r, hr⟩ | ⟨r, hr⟩
    · exact ⟨strLit "ttp://" ++ r, by rw [← hr]; rfl⟩
    · exact ⟨strLit "ttps://" ++ r, by rw [← hr]; rfl⟩
  obtain ⟨t, ht⟩ := hcons
  have hs1 : goIsSpace 'h' = false := rfl
  have hs2 : goIsSpace 't' = false := rfl
  have e1 : trimSpace s = s := by
    have d1 : s.dropWhile goIsSpace = s := by
      rw [ht, List.dropWhile_cons, hs1]
      simp
    have d2 : s.reverse.dropWhile goIsSpace = s.reverse := by
      have : s.reverse = 't' :: (u ++ strLit "/sap/bc/ad").reverse := by
        rw [hlast, List.reverse_append]
        rfl
      rw [this, List.dropWhile_cons, hs2]
      simp
    unfold trimSpace
    rw [d1, d2, List.reverse_reverse]
  have e2 : (strLit "/").isSuffixOf s = false := by
    rw [← Bool.not_eq_true]
    intro hb
    obtain ⟨v, hv⟩ := List.isSuffixOf_iff_suffix.mp hb
    have h1 : s.getLast? = some '/' := by
      rw [← hv]
      exact List.getLast?_concat v
    have h2 : s.getLast? = some 't' := by
      rw [hlast]
      exact List.getLast?_concat _
    rw [h1] at h2
    cases h2
  have e2x : trimSuffixG s (strLit "/") = s := by
    unfold trimSuffixG
    rw [e2]
    simp
  have e3 : ((strLit "http://").isPrefixOf s || (strLit "https://").isPrefixOf s) = true := by
    rcases hpre with hp | hp
    · rw [isPrefixOf_eq_true_iff.mpr hp]
      simp
    · rw [isPrefixOf_eq_true_iff.mpr hp]
      simp
  have e4 : (strLit "/sap/bc/adt").isSuffixOf s = true :=
    List.isSuffixOf_iff_suffix.mpr ⟨u, hu⟩
  simp only [normalizeBaseURL, e1, e2x, e3, e4, if_true]

/-- C10: `normalizeBaseURL` is idempotent, and its result always begins
with "http://" or "https://" and always ends with "/sap/bc/adt". -/
theorem normalizeBaseURL_props (h : GoStr) :
    normalizeBaseURL (normalizeBaseURL h) = normalizeBaseURL h ∧
    ((strLit "http://").isPrefixOf (normalizeBaseURL h) = true ∨
      (strLit "https://").isPrefixOf (normalizeBaseURL h) = true) ∧
    (strLit "/sap/bc/adt").isSuffixOf (normalizeBaseURL h) = true :=
  ⟨norm_fixed (norm_scheme h) (norm_adt_suffix h),
    (norm_scheme h).imp isPrefixOf_eq_true_iff.mpr isPrefixOf_eq_true_iff.mpr,
    List.isSuffixOf_iff_suffix.mpr (norm_adt_suffix h)⟩

/-- The `client` field of a constructed client is never empty: the
constructor substitutes "100". -/
theorem newConfig_client_ne (raw : ADTConfig) : (newADTClientConfig raw).client ≠ "" := by
  show (if raw.client = "" then "100" else raw.client) ≠ ""
  split
  · decide
  · assumption

/-- The `language` field of a constructed client is never empty: the
constructor substitutes "EN". -/
theorem newConfig_language_ne (raw : ADTConfig) : (newADTClientConfig raw).language ≠ "" := by
  show (if raw.language = "" then "EN" else raw.language) ≠ ""
  split
  · decide
  · assumption

/-- C8: for every client configuration as normalised by the constructor,
every value of the internal `sessionType` field and every CSRF-token state,
a request built through the standard header helper (always paired with
`addBasicAuth` at its call sites, and wrapped by `addAuthHeaders`) carries
the basic credential header, the sap-client header, the language header,
and X-sap-adt-sessiontype forced to "stateful". -/
theorem addStandardHeaders_contract (raw : ADTConfig) (sessionType csrfToken : String)
    (h : HeaderMap) :
    addAuthHeaders (newADTClientConfig raw) sessionType csrfToken h "Authorization" =
        some ("Basic " ++ base64Encode ((newADTClientConfig raw).username ++ ":" ++
          (newADTClientConfig raw).password)) ∧
    addAuthHeaders (newADTClientConfig raw) sessionType csrfToken h "sap-client" =
        some (newADTClientConfig raw).client ∧
    addAuthHeaders (newADTClientConfig raw) sessionType csrfToken h "Accept-Language" =
        some (newADTClientConfig raw).language.toLower ∧
    addAuthHeaders (newADTClientConfig raw) sessionType csrfToken h "X-sap-adt-sessiontype" =
        some "stateful" ∧
    addStandardHeaders (newADTClientConfig raw) sessionType (addBasicAuth (newADTClientConfig raw) h)
        "Authorization" =
      some ("Basic " ++ base64Encode ((newADTClientConfig raw).username ++ ":" ++
        (newADTClientConfig raw).password)) ∧
    addStandardHeaders (newADTClientConfig raw) sessionType (addBasicAuth (newADTClientConfig raw) h)
        "X-sap-adt-sessiontype" =
      some "stateful" := by
  have hclient := newConfig_client_ne raw
  have hlang := newConfig_language_ne raw
  refine ⟨?_, ?_, ?_, ?_, ?_, ?_⟩ <;>
    simp [addAuthHeaders, addStandardHeaders, addBasicAuth, setHeader, hclient, hlang,
      apply_ite] <;>
    split <;>
    simp_all [setHeader]

/-- If the login loop reaches a 401 response — every earlier endpoint
outcome neither succeeded nor was itself fatal — the loop stops with the
invalid-credentials classification, whatever error was recorded so far. -/
theorem performLoginLoop_401 :
    ∀ (zs : List (String × ReqOutcome)) (last : Option String) (i : Nat) (hi : i < zs.length),
      statusIs 401 (zs.get ⟨i, hi⟩).2 = true →
      (∀ j (hj : j < i), loginDeciding (zs.get ⟨j, Nat.lt_trans hj hi⟩).2 = false) →
      performLoginLoop zs last =
        .error "authentication failed (401): Invalid username or password" := by
  intro zs
  induction zs with
  | nil => intro last i hi; exact absurd hi (Nat.not_lt_zero i)
  | cons p rest ih =>
    intro last i hi h401 hbefore
    obtain ⟨ep, r⟩ := p
    cases i with
    | zero =>
      rcases r with msg | resp
      · exact absurd h401 (by simp [statusIs])
      · have hst : resp.status = 401 := by
          have := h401
          simpa [statusIs] using this
        simp [performLoginLoop, hst]
    | succ j =>
      have hdec : loginDeciding r = false := hbefore 0 (Nat.succ_pos j)
      have hj' : j < rest.length := Nat.lt_of_succ_lt_succ hi
      have h401' : statusIs 401 (rest.get ⟨j, hj'⟩).2 = true := h401
      have hbefore' : ∀ k (hk : k < j),
          loginDeciding (rest.get ⟨k, Nat.lt_trans hk hj'⟩).2 = false := by
        intro k hk
        exact hbefore (k + 1) (Nat.succ_lt_succ hk)
      rcases r with msg | resp
      · exact ih (some msg) j hj' h401' hbefore'
      · simp only [loginDeciding, Bool.or_eq_false_iff, beq_eq_false_iff_ne, ne_eq] at hdec
        obtain ⟨⟨⟨h200, h304⟩, h401x⟩, h403⟩ := hdec
        by_cases h404 : resp.status = 404
        · simp [performLoginLoop, h200, h304, h401x, h403, h404]
          exact ih _ j hj' h401' hbefore'
        · simp [performLoginLoop, h200, h304, h401x, h403, h404]
          exact ih _ j hj' h401' hbefore'

/-- C2: when the initial-login step of an `Authenticate` run receives an
HTTP 401 (no earlier endpoint outcome was decisive), the run returns the
invalid-credentials error and the fresh client state is unchanged — in
particular never authenticated. -/
theorem Authenticate_401_invalid_credentials
    (cfg : ADTConfig) (env : AuthEnv) (i : Nat)
    (hconn : env.conn = .ok ())
    (hi : i < (loginEndpoints.zip env.login).length)
    (h401 : statusIs 401 ((loginEndpoints.zip env.login).get ⟨i, hi⟩).2 = true)
    (hbefore : ∀ j (hj : j < i),
      loginDeciding ((loginEndpoints.zip env.login).get ⟨j, Nat.lt_trans hj hi⟩).2 = false) :
    (Authenticate env (newClientState cfg)).2 =
      .error "login failed: authentication failed (401): Invalid username or password" ∧
    (Authenticate env (newClientState cfg)).1 = newClientState cfg ∧
    (Authenticate env (newClientState cfg)).1.authenticated = false := by
  have hloop := performLoginLoop_401 (loginEndpoints.zip env.login) none i hi h401 hbefore
  have hlogin : performLogin env.login =
      .error "authentication failed (401): Invalid username or password" := hloop
  refine ⟨?_, ?_, ?_⟩ <;>
    simp [Authenticate, hconn, hlogin, newClientState]

/-- C2 witness: a 401 on the first login endpoint. -/
theorem Authenticate_401_witness :
    (Authenticate ⟨.ok (), [.resp ⟨401, "", "", "", ""⟩], .resp ⟨200, "", "", "", ""⟩, []⟩
        (newClientState ⟨"h", "100", "u", "p", "EN"⟩)).2 =
      .error "login failed: authentication failed (401): Invalid username or password" :=
  (Authenticate_401_invalid_credentials ⟨"h", "100", "u", "p", "EN"⟩
    ⟨.ok (), [.resp ⟨401, "", "", "", ""⟩], .resp ⟨200, "", "", "", ""⟩, []⟩ 0 rfl
    (by decide) (by rfl) (fun j hj => absurd hj (Nat.not_lt_zero j))).1

/-- When no validation endpoint succeeds the validation loop always ends
exhausted. -/
theorem validateSessionLoop_exhausted :
    ∀ (zs : List (String × ReqOutcome)) (last : Option String),
      (∀ p ∈ zs, isHttpSuccess p.2 = false) →
      ∃ l, validateSessionLoop zs last = .exhausted l := by
  intro zs
  induction zs with
  | nil => exact fun last _ => ⟨last, rfl⟩
  | cons p rest ih =>
    intro last hall
    obtain ⟨ep, r⟩ := p
    have hr : isHttpSuccess r = false := hall (ep, r) (List.mem_cons_self _ _)
    have hrest : ∀ q ∈ rest, isHttpSuccess q.2 = false :=
      fun q hq => hall q (List.mem_cons_of_mem _ hq)
    rcases r with msg | resp
    · exact ih (some msg) hrest
    · simp only [isHttpSuccess, Bool.or_eq_false_iff, beq_eq_false_iff_ne, ne_eq] at hr
      by_cases h404 : resp.status = 404
      · simpa [validateSessionLoop, hr.1, hr.2, h404] using ih _ hrest
      · simpa [validateSessionLoop, hr.1, hr.2, h404] using ih _ hrest

/-- `validateSession` can only fail when the client holds no CSRF token. -/
theorem validateSession_error_no_token (rs : List ReqOutcome) (st : ClientState) (e : String)
    (h : validateSession rs st = .error e) : st.csrfToken = "" := by
  unfold validateSession at h
  rcases hl : validateSessionLoop (loginEndpoints.zip rs) none with _ | last
  · rw [hl] at h
    cases h
  · rw [hl] at h
    by_cases ht : st.csrfToken ≠ ""
    · simp [ht] at h
    · simpa using ht

/-- C3: when the connectivity, login and CSRF steps succeed with a
non-empty, non-placeholder token, a run in which every validation endpoint
fails still succeeds as a whole and sets authenticated; and validation can
only fail when no CSRF token is held. -/
theorem Authenticate_relaxed_validation
    (cfg : ADTConfig) (env : AuthEnv) (resp : HttpResp)
    (hconn : env.conn = .ok ())
    (hlogin : performLogin env.login = .ok ())
    (hcsrf : env.csrf = .resp resp)
    (hstatus : resp.status = 200 ∨ resp.status = 304)
    (htok1 : resp.csrfHeader ≠ "")
    (htok2 : resp.csrfHeader ≠ "Fetch")
    (hvalfail : ∀ p ∈ loginEndpoints.zip env.validate, isHttpSuccess p.2 = false) :
    (Authenticate env (newClientState cfg)).2 = .ok () ∧
    (Authenticate env (newClientState cfg)).1.authenticated = true ∧
    (Authenticate env (newClientState cfg)).1.csrfToken = resp.csrfHeader ∧
    (∀ rs st e, validateSession rs st = .error e → st.csrfToken = "") := by
  have hget : getCSRFToken env.csrf (newClientState cfg) =
      ({ newClientState cfg with csrfToken := resp.csrfHeader }, .ok ()) := by
    simp [getCSRFToken, hcsrf, hstatus, htok1, htok2]
  obtain ⟨l, hl⟩ := validateSessionLoop_exhausted (loginEndpoints.zip env.validate) none hvalfail
  have hval : validateSession env.validate
      { newClientState cfg with csrfToken := resp.csrfHeader } = .ok () := by
    simp [validateSession, hl, htok1]
  refine ⟨?_, ?_, ?_, fun rs st e h => validateSession_error_no_token rs st e h⟩ <;>
    simp [Authenticate, hconn, hlogin, hget, hval]

/-- C3 witness: a token obtained in step 3 and three failing validation
endpoints still yield a successful, authenticated run. -/
theorem Authenticate_relaxed_validation_witness :
    (Authenticate ⟨.ok (), [.resp ⟨200, "", "", "", ""⟩], .resp ⟨200, "", "TOK123", "", ""⟩,
        [.fail "down", .fail "down", .fail "down"]⟩
      (newClientState ⟨"h", "100", "u", "p", "EN"⟩)).2 = .ok () ∧
    (Authenticate ⟨.ok (), [.resp ⟨200, "", "", "", ""⟩], .resp ⟨200, "", "TOK123", "", ""⟩,
        [.fail "down", .fail "down", .fail "down"]⟩
      (newClientState ⟨"h", "100", "u", "p", "EN"⟩)).1.authenticated = true := by
  have h := Authenticate_relaxed_validation ⟨"h", "100", "u", "p", "EN"⟩
    ⟨.ok (), [.resp ⟨200, "", "", "", ""⟩], .resp ⟨200, "", "TOK123", "", ""⟩,
      [.fail "down", .fail "down", .fail "down"]⟩
    ⟨200, "", "TOK123", "", ""⟩ rfl rfl rfl (Or.inl rfl) (by decide) (by decide) (by decide)
  exact ⟨h.1, h.2.1⟩

/-- `getCSRFToken` never writes the `authenticated` flag. -/
theorem getCSRFToken_preserves_authenticated (r : ReqOutcome) (st : ClientState) :
    ((getCSRFToken r st).1).authenticated = st.authenticated := by
  rcases r with msg | resp
  · rfl
  · simp only [getCSRFToken]
    split
    · split <;> rfl
    · rfl

/-- A successful `getCSRFToken` leaves a token that is neither empty nor
the "Fetch" placeholder. -/
theorem getCSRFToken_ok_token (r : ReqOutcome) (st : ClientState)
    (h : (getCSRFToken r st).2 = .ok ()) :
    (getCSRFToken r st).1.csrfToken ≠ "" ∧ (getCSRFToken r st).1.csrfToken ≠ "Fetch" := by
  rcases r with msg | resp
  · simp [getCSRFToken] at h
  · simp only [getCSRFToken] at h ⊢
    split at h
    · split at h
      · cases h
      · rename_i hst hne
        push_neg at hne
        simp [hst, hne]
    · cases h

/-- C7 counterexample: a state satisfying the invariant (authenticated with
token "TOK") on which a failed re-run of `Authenticate` — the CSRF endpoint
answers 200 without a token header — leaves authenticated == true with an
empty csrfToken, so the invariant is not preserved by every operation. -/
theorem authenticated_invariant_counterexample :
    (⟨⟨"h", "100", "u", "p", "EN"⟩, "TOK", true, "stateful"⟩ : ClientState).authenticated = true ∧
    (⟨⟨"h", "100", "u", "p", "EN"⟩, "TOK", true, "stateful"⟩ : ClientState).csrfToken ≠ "" ∧
    (Authenticate ⟨.ok (), [.resp ⟨200, "", "", "", ""⟩], .resp ⟨200, "", "", "", ""⟩, []⟩
        ⟨⟨"h", "100", "u", "p", "EN"⟩, "TOK", true, "stateful"⟩).1.authenticated = true ∧
    (Authenticate ⟨.ok (), [.resp ⟨200, "", "", "", ""⟩], .resp ⟨200, "", "", "", ""⟩, []⟩
        ⟨⟨"h", "100", "u", "p", "EN"⟩, "TOK", true, "stateful"⟩).1.csrfToken = "" := by
  refine ⟨rfl, by decide, by rfl, by rfl⟩

/-- C7 amended: a successful `Authenticate` run always ends authenticated
with a token that is neither empty nor "Fetch" (so the invariant holds,
and `authenticated` is only set after `getCSRFToken` succeeded); any run
started from an unauthenticated state preserves the invariant; a 200
response whose token header is empty or the placeholder makes
`getCSRFToken` fail; and `IsAuthenticated` returns
`authenticated && csrfToken != ""`. Only a failed re-authentication of an
already-authenticated client can break the invariant. -/
theorem Authenticate_invariant_amended (env : AuthEnv) (st : ClientState) :
    ((Authenticate env st).2 = .ok () →
      (Authenticate env st).1.authenticated = true ∧
      (Authenticate env st).1.csrfToken ≠ "" ∧ (Authenticate env st).1.csrfToken ≠ "Fetch") ∧
    (st.authenticated = false →
      (Authenticate env st).1.authenticated = true →
      (Authenticate env st).1.csrfToken ≠ "") ∧
    (∀ resp st2, (resp.csrfHeader = "" ∨ resp.csrfHeader = "Fetch") →
      (resp.status = 200 ∨ resp.status = 304) →
      (getCSRFToken (.resp resp) st2).2 = .error "no valid CSRF token received from server") ∧
    IsAuthenticated st = (st.authenticated && (st.csrfToken != "")) := by
  refine ⟨?_, ?_, ?_, rfl⟩
  · intro hok
    rcases hc : env.conn with e | u
    · simp [Authenticate, hc] at hok
    · rcases hlg : performLogin env.login with e | u2
      · simp [Authenticate, hc, hlg] at hok
      · rcases hg : getCSRFToken env.csrf st with ⟨st1, r1⟩
        rcases r1 with e | u3
        · simp [Authenticate, hc, hlg, hg] at hok
        · have htok := getCSRFToken_ok_token env.csrf st (by rw [hg])
          rw [hg] at htok
          have htok1 : st1.csrfToken ≠ "" := htok.1
          have htok2 : st1.csrfToken ≠ "Fetch" := htok.2
          rcases hv : validateSession env.validate st1 with e | u4
          · simp [Authenticate, hc, hlg, hg, hv] at hok
          · simp [Authenticate, hc, hlg, hg, hv]
            exact ⟨htok1, htok2⟩
  · intro hst hauth
    rcases hc : env.conn with e | u
    · simp [Authenticate, hc] at hauth
      simp [hst] at hauth
    · rcases hlg : performLogin env.login with e | u2
      · simp [Authenticate, hc, hlg] at hauth
        simp [hst] at hauth
      · rcases hg : getCSRFToken env.csrf st with ⟨st1, r1⟩
        have hpres := getCSRFToken_preserves_authenticated env.csrf st
        rw [hg] at hpres
        have hpres1 : st1.authenticated = st.authenticated := hpres
        rcases r1 with e | u3
        · simp [Authenticate, hc, hlg, hg] at hauth
          rw [hpres1] at hauth
          simp [hst] at hauth
        · have htok := getCSRFToken_ok_token env.csrf st (by rw [hg])
          rw [hg] at htok
          have htok1 : st1.csrfToken ≠ "" := htok.1
          rcases hv : validateSession env.validate st1 with e | u4
          · simp [Authenticate, hc, hlg, hg, hv] at hauth
            rw [hpres1] at hauth
            simp [hst] at hauth
          · simp [Authenticate, hc, hlg, hg, hv]
            exact htok1
  · intro resp st2 hh hstatus
    simp [getCSRFToken, hstatus]
    rcases hh with hh | hh <;> simp [hh]

/-- C7 witness: a successful run from a fresh client ends authenticated
with the non-empty token. -/
theorem Authenticate_invariant_amended_witness :
    (Authenticate ⟨.ok (), [.resp ⟨200, "", "", "", ""⟩], .resp ⟨200, "", "TOK123", "", ""⟩,
        [.resp ⟨200, "", "", "", ""⟩]⟩
      (newClientState ⟨"h", "100", "u", "p", "EN"⟩)).1.authenticated = true ∧
    (Authenticate ⟨.ok (), [.resp ⟨200, "", "", "", ""⟩], .resp ⟨200, "", "TOK123", "", ""⟩,
        [.resp ⟨200, "", "", "", ""⟩]⟩
      (newClientState ⟨"h", "100", "u", "p", "EN"⟩)).1.csrfToken ≠ "" :=
  have h := (Authenticate_invariant_amended
    ⟨.ok (), [.resp ⟨200, "", "", "", ""⟩], .resp ⟨200, "", "TOK123", "", ""⟩,
      [.resp ⟨200, "", "", "", ""⟩]⟩
    (newClientState ⟨"h", "100", "u", "p", "EN"⟩)).1 (by rfl)
  ⟨h.1, h.2.1⟩

/-- `unlockProgram` performs exactly one unlock attempt whatever the
response. -/
theorem unlockProgram_one_attempt (name handle : String) (r : ReqOutcome) :
    countUnlockAttempts (unlockProgram name handle r) = 1 := by
  rcases r with msg | resp
  · rfl
  · by_cases hs : resp.status = 200 ∨ resp.status = 204
    · simp [unlockProgram, hs, countUnlockAttempts]
    · simp [unlockProgram, hs, countUnlockAttempts]

/-- C1: once the lock is acquired, `UpdateProgramSource` attempts the
unlock exactly once on every exit path — successful PUT, failing PUT, and
panic-equivalent abort — and the returned result is determined by the PUT
outcome alone, never replaced by the outcome of the unlock request. -/
theorem UpdateProgramSource_unlock_exactly_once
    (st : ClientState) (name : String) (env : UpdateEnv) (handle : String)
    (hauth : IsAuthenticated st = true)
    (hlock : (lockProgramRun env.lock).2 = .ok handle) :
    countUnlockAttempts (UpdateProgramSource st name env).1 = 1 ∧
    (UpdateProgramSource st name env).2 = putOutcomeResult env.put ∧
    (∀ u : ReqOutcome, (UpdateProgramSource st name ⟨env.lock, env.put, u⟩).2 =
      (UpdateProgramSource st name env).2) := by
  rcases hrun : lockProgramRun env.lock with ⟨att, res⟩
  rw [hrun] at hlock
  simp only at hlock
  subst hlock
  refine ⟨?_, ?_, ?_⟩
  · simp only [UpdateProgramSource, hauth, hrun]
    simp [unlockProgram_one_attempt]
  · simp only [UpdateProgramSource, hauth, hrun]
    rcases env.put with msg | ⟨status, body⟩ | _ <;> simp [putOutcomeResult]
  · intro u
    simp only [UpdateProgramSource, hauth, hrun]
    rcases env.put with msg | ⟨status, body⟩ | _ <;> simp

/-- C1 witness: a PUT answered with HTTP 500 still unlocks exactly once and
returns the PUT-derived error even though the unlock request itself fails
with 500. -/
theorem UpdateProgramSource_unlock_witness :
    countUnlockAttempts (UpdateProgramSource
      ⟨⟨"h", "100", "u", "p", "EN"⟩, "TOK", true, "stateful"⟩ "ztest"
      ⟨⟨.resp ⟨200, "", "", "H1", ""⟩, .fail "unused"⟩, .resp 500 "boom",
        .resp ⟨500, "locked", "", "", ""⟩⟩).1 = 1 ∧
    (UpdateProgramSource ⟨⟨"h", "100", "u", "p", "EN"⟩, "TOK", true, "stateful"⟩ "ztest"
      ⟨⟨.resp ⟨200, "", "", "H1", ""⟩, .fail "unused"⟩, .resp 500 "boom",
        .resp ⟨500, "locked", "", "", ""⟩⟩).2 =
      putOutcomeResult (.resp 500 "boom") :=
  have h := UpdateProgramSource_unlock_exactly_once
    ⟨⟨"h", "100", "u", "p", "EN"⟩, "TOK", true, "stateful"⟩ "ztest"
    ⟨⟨.resp ⟨200, "", "", "H1", ""⟩, .fail "unused"⟩, .resp 500 "boom",
      .resp ⟨500, "locked", "", "", ""⟩⟩ "H1" (by rfl) (by rfl)
  ⟨h.1, h.2.1⟩

/-- C5: the primary lock request is always made; the alternative-encoding
request is made exactly when the primary response is a 400 whose body
contains "Content type missing", and then the result of the whole call is
the result of `lockProgramAlternative` — which never retries again, so a
second failing response (of any status, in particular an identical 400)
makes the whole call fail. -/
theorem lockProgram_retry_policy (env : LockEnv) :
    ((lockProgramRun env).1 =
      if triggersLockRetry env.first then [.primary, .alternative] else [.primary]) ∧
    (triggersLockRetry env.first = true →
      (lockProgramRun env).2 = lockProgramAlternative env.second) ∧
    (∀ resp2, env.second = .resp resp2 → resp2.status ≠ 200 →
      triggersLockRetry env.first = true →
      (lockProgramRun env).2 =
        .error ("alternative lock failed: HTTP " ++ toString resp2.status ++ " - " ++
          resp2.body)) ∧
    (∀ msg2, env.second = .fail msg2 → triggersLockRetry env.first = true →
      (lockProgramRun env).2 = .error ("alternative lock request failed: " ++ msg2)) := by
  have halt : triggersLockRetry env.first = true →
      (lockProgramRun env).2 = lockProgramAlternative env.second := by
    intro htr
    rcases hf : env.first with msg | resp
    · rw [hf] at htr
      cases htr
    · rw [hf] at htr
      simp only [triggersLockRetry, Bool.and_eq_true, beq_iff_eq] at htr
      have hne : resp.status ≠ 200 := by
        rw [htr.1]
        decide
      simp [lockProgramRun, hf, hne, htr.1, htr.2]
  refine ⟨?_, halt, ?_, ?_⟩
  · rcases hf : env.first with msg | resp
    · simp [lockProgramRun, triggersLockRetry, hf]
    · by_cases hs : resp.status = 200
      · have htf : triggersLockRetry (.resp resp) = false := by
          simp [triggersLockRetry, hs]
        simp only [lockProgramRun, hf, htf]
        rw [if_neg (by simp [hs]), if_neg (by decide : ¬(false = true))]
        split <;> first | rfl | (split <;> rfl)
      · by_cases hc : resp.status = 400 ∧ goContains resp.body "Content type missing" = true
        · have htf : triggersLockRetry (.resp resp) = true := by
            simp [triggersLockRetry, hc.1, hc.2]
          simp [lockProgramRun, hf, hs, hc, htf]
        · have htf : triggersLockRetry (.resp resp) = false := by
            by_cases h4 : resp.status = 400
            · have hb : goContains resp.body "Content type missing" = false := by
                rcases Bool.eq_false_or_eq_true
                    (goContains resp.body "Content type missing") with hb | hb
                · exact absurd ⟨h4, hb⟩ hc
                · exact hb
              simp [triggersLockRetry, h4, hb]
            · simp [triggersLockRetry, h4]
          simp [lockProgramRun, hf, hs, hc, htf]
  · intro resp2 h2 hst htr
    rw [halt htr, h2]
    simp [lockProgramAlternative, hst]
  · intro msg2 h2 htr
    rw [halt htr, h2]
    simp [lockProgramAlternative]

/-- C5 witness: two identical "Content type missing" 400 responses — one
retry is made and the call ends in an error. -/
theorem lockProgram_retry_policy_witness :
    (lockProgramRun ⟨.resp ⟨400, "CSRF: Content type missing", "", "", ""⟩,
        .resp ⟨400, "CSRF: Content type missing", "", "", ""⟩⟩).1 =
      [.primary, .alternative] ∧
    (lockProgramRun ⟨.resp ⟨400, "CSRF: Content type missing", "", "", ""⟩,
        .resp ⟨400, "CSRF: Content type missing", "", "", ""⟩⟩).2 =
      .error ("alternative lock failed: HTTP " ++ toString (400 : Nat) ++ " - " ++
        "CSRF: Content type missing") :=
  have h := lockProgram_retry_policy ⟨.resp ⟨400, "CSRF: Content type missing", "", "", ""⟩,
    .resp ⟨400, "CSRF: Content type missing", "", "", ""⟩⟩
  have htr : triggersLockRetry (.resp ⟨400, "CSRF: Content type missing", "", "", ""⟩) = true :=
    by rfl
  ⟨by rw [h.1, htr]; rfl,
    h.2.2.1 ⟨400, "CSRF: Content type missing", "", "", ""⟩ rfl (by decide) htr⟩

/-- The cache key determines the username when host, client and password
agree: with those three fields fixed the key computation is injective in
the username. -/
theorem configKey_username_injective (a b : MainConfig)
    (hh : a.adtHost = b.adtHost) (hc : a.adtClient = b.adtClient)
    (hp : a.adtPassword = b.adtPassword) (hk : configKey a = configKey b) :
    a.adtUsername = b.adtUsername := by
  unfold configKey at hk
  rw [hh, hc, hp] at hk
  have hd := congrArg String.data hk
  simp only [String.data_append, List.append_assoc] at hd
  have h1 := List.append_cancel_left hd
  have h2 := List.append_cancel_left h1
  have h3 := List.append_cancel_left h2
  have h4 := List.append_cancel_left h3
  rw [← List.append_assoc, ← List.append_assoc] at h4
  have h5 := List.append_cancel_right h4
  have h6 := List.append_cancel_right h5
  exact String.ext h6

/-- C6: a first call on an empty cache creates and caches a client with one
`Authenticate` run; a second call with the identical configuration within
the TTL — while the cached client is still authenticated and its ping
succeeds — returns the same instance with no further `Authenticate`; a call
differing only in the username computes a different key and therefore
builds a new client with a fresh `Authenticate`, even inside the TTL. -/
theorem getCachedADTClient_policy
    (oracle : ClientOracle) (cfg cfg2 : MainConfig) (t0 t1 f1 f2 : Nat)
    (httl : t1 - t0 < cacheTimeout)
    (hauth : oracle.isAuth f1 = true) (hping : oracle.pingOk f1 = true) :
    (getCachedADTClient oracle ⟨none, "", 0⟩ cfg t0 f1 =
      (f1, ⟨some f1, configKey cfg, t0⟩, 1)) ∧
    (getCachedADTClient oracle ⟨some f1, configKey cfg, t0⟩ cfg t1 f2 =
      (f1, ⟨some f1, configKey cfg, t0⟩, 0)) ∧
    (cfg2.adtHost = cfg.adtHost → cfg2.adtClient = cfg.adtClient →
      cfg2.adtPassword = cfg.adtPassword → cfg2.adtUsername ≠ cfg.adtUsername →
      getCachedADTClient oracle ⟨some f1, configKey cfg, t0⟩ cfg2 t1 f2 =
        (f2, ⟨some f2, configKey cfg2, t1⟩, 1)) := by
  refine ⟨rfl, ?_, ?_⟩
  · simp [getCachedADTClient, httl, hauth, hping]
  · intro hh hc hp hu
    have hkey : configKey cfg ≠ configKey cfg2 := by
      intro hk
      exact hu (configKey_username_injective cfg2 cfg hh hc hp hk.symm)
    simp [getCachedADTClient, hkey]

/-- C6 witness: a cache hit for the identical profile, and a rebuild with a
fresh `Authenticate` for the profile differing only in username. -/
theorem getCachedADTClient_policy_witness :
    getCachedADTClient ⟨fun _ => true, fun _ => true⟩
        ⟨some 1, configKey ⟨"h", "100", "u", "p"⟩, 0⟩ ⟨"h", "100", "u", "p"⟩ 5 2 =
      (1, ⟨some 1, configKey ⟨"h", "100", "u", "p"⟩, 0⟩, 0) ∧
    getCachedADTClient ⟨fun _ => true, fun _ => true⟩
        ⟨some 1, configKey ⟨"h", "100", "u", "p"⟩, 0⟩ ⟨"h", "100", "v", "p"⟩ 5 2 =
      (2, ⟨some 2, configKey ⟨"h", "100", "v", "p"⟩, 5⟩, 1) :=
  have h := getCachedADTClient_policy ⟨fun _ => true, fun _ => true⟩ ⟨"h", "100", "u", "p"⟩
    ⟨"h", "100", "v", "p"⟩ 0 5 1 2 (by decide) rfl rfl
  ⟨h.2.1, h.2.2 rfl rfl rfl (by decide)⟩
